import Mathlib

/-!
Shallow embedding of the plaso fake storage writer and warning containers.

Source files embedded:
- `plaso/storage/fake/writer.py` (`FakeStorageWriter`)
- `plaso/containers/warnings.py` (`ExtractionWarning`)

The base class `plaso.storage.writer.StorageWriter`, the in-memory backing
store `plaso.storage.fake.fake_store.FakeStore`, and the `Session`/`Task`
value objects are not part of the excerpt; the definitions that stand in for
them are modelled from the spec and say so in their doc comments.

Python exceptions are modelled with an explicit error type: every operation
returns a pair of an `Except` result and the post-state of the writer, where
a raise at some program point yields the state as mutated up to that point.
-/

set_option autoImplicit false

namespace Plaso

/-- The storage types from `plaso.lib.definitions`:
`STORAGE_TYPE_SESSION` and `STORAGE_TYPE_TASK`. -/
inductive StorageType where
  | session
  | task
  deriving DecidableEq, Repr

/-- The error conditions raised by the store/writer layer. In the Python
source these are all `IOError`, distinguished by message:
`notOpen` is "Unable to read/write to closed storage writer.",
`alreadyOpen` is "Storage writer already opened.", and
`unsupportedForStorageType` is "... not supported by storage type.". -/
inductive StorageError where
  | notOpen
  | alreadyOpen
  | unsupportedForStorageType
  deriving DecidableEq, Repr

/-- Session start attribute container: the one-shot record created when a
session scope begins. Its payload is opaque to the writer. -/
structure SessionStart where
  identifier : Nat
  deriving DecidableEq, Repr

/-- Session completion attribute container. Payload opaque to the writer. -/
structure SessionCompletion where
  identifier : Nat
  deriving DecidableEq, Repr

/-- Session configuration attribute container. Payload opaque to the writer. -/
structure SessionConfiguration where
  identifier : Nat
  deriving DecidableEq, Repr

/-- Task start attribute container. Payload opaque to the writer. -/
structure TaskStart where
  identifier : Nat
  deriving DecidableEq, Repr

/-- Task completion attribute container. Payload opaque to the writer. -/
structure TaskCompletion where
  identifier : Nat
  deriving DecidableEq, Repr

/-- Event source attribute container: a discovered unit of extraction work.
Its payload is opaque to the writer; only identity matters here. -/
structure EventSource where
  identifier : Nat
  deriving DecidableEq, Repr

/-- Modelled from the spec: a `Session` value object exposes the pure,
side-effect-free derivations `CreateSessionStart`, `CreateSessionCompletion`
and `CreateSessionConfiguration` (`plaso/containers/sessions.py` is not part
of the excerpt). The model carries the three records the derivations
produce. -/
structure Session where
  toSessionStart : SessionStart
  toSessionCompletion : SessionCompletion
  toSessionConfiguration : SessionConfiguration
  deriving DecidableEq, Repr

/-- `Session.CreateSessionStart`: pure derivation of the session start
record. -/
def Session.CreateSessionStart (s : Session) : SessionStart :=
  s.toSessionStart

/-- `Session.CreateSessionCompletion`: pure derivation of the session
completion record. -/
def Session.CreateSessionCompletion (s : Session) : SessionCompletion :=
  s.toSessionCompletion

/-- `Session.CreateSessionConfiguration`: pure derivation of the session
configuration record. -/
def Session.CreateSessionConfiguration (s : Session) : SessionConfiguration :=
  s.toSessionConfiguration

/-- Modelled from the spec: a `Task` value object exposes the pure
derivations `CreateTaskStart` and `CreateTaskCompletion`
(`plaso/containers/tasks.py` is not part of the excerpt). -/
structure Task where
  toTaskStart : TaskStart
  toTaskCompletion : TaskCompletion
  deriving DecidableEq, Repr

/-- `Task.CreateTaskStart`: pure derivation of the task start record. -/
def Task.CreateTaskStart (t : Task) : TaskStart :=
  t.toTaskStart

/-- `Task.CreateTaskCompletion`: pure derivation of the task completion
record. -/
def Task.CreateTaskCompletion (t : Task) : TaskCompletion :=
  t.toTaskCompletion

/-- Modelled from the spec: the in-memory backing store
`plaso.storage.fake.fake_store.FakeStore` (not part of the excerpt). It
holds attribute containers per kind in append order. The store-level
`Open`/`Close` lifecycle is not modelled: `FakeStorageWriter.Open` creates
the store and immediately opens it, and the writer drops its handle on
close, so every store a writer holds is open. -/
structure FakeStore where
  eventSources : List EventSource
  sessionStarts : List SessionStart
  sessionCompletions : List SessionCompletion
  sessionConfigurations : List SessionConfiguration
  taskStarts : List TaskStart
  taskCompletions : List TaskCompletion
  deriving DecidableEq, Repr

/-- A freshly instantiated (and opened) `FakeStore`: no containers of any
kind. -/
def FakeStore.empty : FakeStore :=
  ⟨[], [], [], [], [], []⟩

/-- Modelled from the spec: `FakeStore.GetAttributeContainerByIndex` for the
event-source container kind — 0-based positional lookup in append order,
returning no container when the index is beyond the store's current count. -/
def FakeStore.GetAttributeContainerByIndex (st : FakeStore) (index : Nat) :
    Option EventSource :=
  st.eventSources.get? index

/-- The state of a `FakeStorageWriter` (`plaso/storage/fake/writer.py`).
`store` is `self._store` (`none` when the writer is closed); the two indices
are `self._first_written_event_source_index` and
`self._written_event_source_index`; the five cached records are the public
attributes set by `__init__` and the typed write operations. -/
structure FakeStorageWriter where
  storage_type : StorageType
  store : Option FakeStore
  first_written_event_source_index : Nat
  written_event_source_index : Nat
  session_completion : Option SessionCompletion
  session_configuration : Option SessionConfiguration
  session_start : Option SessionStart
  task_completion : Option TaskCompletion
  task_start : Option TaskStart
  deriving DecidableEq, Repr

namespace FakeStorageWriter

/-- `FakeStorageWriter.__init__(storage_type)`: the five cached records are
set to `None`; the base class (modelled from the spec) records the storage
type, starts with no attached store, and zero cursor counters. -/
def init (storage_type : StorageType) : FakeStorageWriter :=
  { storage_type := storage_type
    store := none
    first_written_event_source_index := 0
    written_event_source_index := 0
    session_completion := none
    session_configuration := none
    session_start := none
    task_completion := none
    task_start := none }

/-- Modelled from the spec: `StorageWriter._RaiseIfNotWritable` (base class
`plaso/storage/writer.py`, not part of the excerpt): every typed write
operation first checks that the writer is open, raising the not-writable
(`NotOpen`) error otherwise. -/
def RaiseIfNotWritable (w : FakeStorageWriter) : Except StorageError Unit :=
  match w.store with
  | none => .error .notOpen
  | some _ => .ok ()

/-- `FakeStorageWriter.GetFirstWrittenEventSource`: raises when closed,
otherwise reads the store at `first_written_event_source_index` and sets
`written_event_source_index` to `first_written_event_source_index + 1`. -/
def GetFirstWrittenEventSource (w : FakeStorageWriter) :
    Except StorageError (Option EventSource) × FakeStorageWriter :=
  match w.store with
  | none => (.error .notOpen, w)
  | some st =>
      (.ok (st.GetAttributeContainerByIndex w.first_written_event_source_index),
       { w with written_event_source_index :=
                  w.first_written_event_source_index + 1 })

/-- `FakeStorageWriter.GetNextWrittenEventSource`: raises when closed,
otherwise reads the store at `written_event_source_index` and increments
that index by one (unconditionally, also when the read returned no
container). -/
def GetNextWrittenEventSource (w : FakeStorageWriter) :
    Except StorageError (Option EventSource) × FakeStorageWriter :=
  match w.store with
  | none => (.error .notOpen, w)
  | some st =>
      (.ok (st.GetAttributeContainerByIndex w.written_event_source_index),
       { w with written_event_source_index :=
                  w.written_event_source_index + 1 })

/-- `FakeStorageWriter.Open`: raises when already open, otherwise attaches a
freshly instantiated (and opened) `FakeStore` and resets both event-source
cursor counters to zero. -/
def Open (w : FakeStorageWriter) :
    Except StorageError Unit × FakeStorageWriter :=
  match w.store with
  | some _ => (.error .alreadyOpen, w)
  | none =>
      (.ok (), { w with store := some FakeStore.empty
                        first_written_event_source_index := 0
                        written_event_source_index := 0 })

/-- Modelled from the spec: `StorageWriter.Close` (base class, not part of
the excerpt) releases the backing store handle; all write/read operations
fail with the `NotOpen` error once closed. -/
def Close (w : FakeStorageWriter) : FakeStorageWriter :=
  { w with store := none }

/-- Modelled from the spec: `StorageWriter.AddEventSource` (base class, not
part of the excerpt): a generic append delegating to the store, which
appends the container in order. -/
def AddEventSource (w : FakeStorageWriter) (event_source : EventSource) :
    Except StorageError Unit × FakeStorageWriter :=
  match w.store with
  | none => (.error .notOpen, w)
  | some st =>
      let st2 := { st with eventSources := st.eventSources ++ [event_source] }
      (.ok (), { w with store := some st2 })

/-- `FakeStorageWriter.WriteSessionCompletion`: checks writability, then the
storage type, then caches `session.CreateSessionCompletion()` in
`session_completion`. Nothing is appended to the backing store. -/
def WriteSessionCompletion (w : FakeStorageWriter) (session : Session) :
    Except StorageError Unit × FakeStorageWriter :=
  match w.RaiseIfNotWritable with
  | .error e => (.error e, w)
  | .ok () =>
      if w.storage_type ≠ StorageType.session then
        (.error .unsupportedForStorageType, w)
      else
        (.ok (), { w with
                   session_completion := some session.CreateSessionCompletion })

/-- `FakeStorageWriter.WriteSessionConfiguration`: checks writability, then
the storage type, then caches `session.CreateSessionConfiguration()` in
`session_configuration`. Nothing is appended to the backing store. -/
def WriteSessionConfiguration (w : FakeStorageWriter) (session : Session) :
    Except StorageError Unit × FakeStorageWriter :=
  match w.RaiseIfNotWritable with
  | .error e => (.error e, w)
  | .ok () =>
      if w.storage_type ≠ StorageType.session then
        (.error .unsupportedForStorageType, w)
      else
        (.ok (), { w with
                   session_configuration := some session.CreateSessionConfiguration })

/-- `FakeStorageWriter.WriteSessionStart`: checks writability, then the
storage type, then caches `session.CreateSessionStart()` in
`session_start`. Nothing is appended to the backing store. -/
def WriteSessionStart (w : FakeStorageWriter) (session : Session) :
    Except StorageError Unit × FakeStorageWriter :=
  match w.RaiseIfNotWritable with
  | .error e => (.error e, w)
  | .ok () =>
      if w.storage_type ≠ StorageType.session then
        (.error .unsupportedForStorageType, w)
      else
        (.ok (), { w with session_start := some session.CreateSessionStart })

/-- `FakeStorageWriter.WriteTaskCompletion`: checks writability, then the
storage type, then caches `task.CreateTaskCompletion()` in
`task_completion`. Nothing is appended to the backing store. -/
def WriteTaskCompletion (w : FakeStorageWriter) (task : Task) :
    Except StorageError Unit × FakeStorageWriter :=
  match w.RaiseIfNotWritable with
  | .error e => (.error e, w)
  | .ok () =>
      if w.storage_type ≠ StorageType.task then
        (.error .unsupportedForStorageType, w)
      else
        (.ok (), { w with task_completion := some task.CreateTaskCompletion })

/-- `FakeStorageWriter.WriteTaskStart`: checks writability, then the storage
type, then caches `task.CreateTaskStart()` in `task_start`. Nothing is
appended to the backing store. -/
def WriteTaskStart (w : FakeStorageWriter) (task : Task) :
    Except StorageError Unit × FakeStorageWriter :=
  match w.RaiseIfNotWritable with
  | .error e => (.error e, w)
  | .ok () =>
      if w.storage_type ≠ StorageType.task then
        (.error .unsupportedForStorageType, w)
      else
        (.ok (), { w with task_start := some task.CreateTaskStart })

end FakeStorageWriter

/-- A path specification (dfvfs `PathSpec`, external to this repository):
opaque evidence-location value. -/
structure PathSpec where
  location : String
  deriving DecidableEq, Repr

/-- `ExtractionWarning` (`plaso/containers/warnings.py`): a non-fatal
diagnostic attribute container with exactly the attributes `message`,
`parser_chain` and `path_spec`. -/
structure ExtractionWarning where
  message : Option String
  parser_chain : Option String
  path_spec : Option PathSpec
  deriving DecidableEq, Repr

/-- `ExtractionWarning.CONTAINER_TYPE`. -/
def ExtractionWarning.CONTAINER_TYPE : String :=
  "extraction_warning"

/-- `ExtractionWarning.__init__(message=None, parser_chain=None,
path_spec=None)`: stores each argument unchanged in the attribute of the
same name (each argument is optional and defaults to `None`). -/
def ExtractionWarning.init (message : Option String)
    (parser_chain : Option String) (path_spec : Option PathSpec) :
    ExtractionWarning :=
  { message := message
    parser_chain := parser_chain
    path_spec := path_spec }

/-- The five records a `FakeStorageWriter` caches, bundled for stating
preservation properties. -/
def FakeStorageWriter.cachedRecords (w : FakeStorageWriter) :
    Option SessionStart × Option SessionCompletion ×
    Option SessionConfiguration × Option TaskStart × Option TaskCompletion :=
  (w.session_start, w.session_completion, w.session_configuration,
   w.task_start, w.task_completion)

/-- A sample session value used to instantiate general theorems. -/
def sampleSession : Session :=
  ⟨⟨1⟩, ⟨2⟩, ⟨3⟩⟩

/-- A sample task value used to instantiate general theorems. -/
def sampleTask : Task :=
  ⟨⟨4⟩, ⟨5⟩⟩

/-- A freshly opened session-type writer. -/
def openSessionWriter : FakeStorageWriter :=
  ((FakeStorageWriter.init StorageType.session).Open).2

/-- A freshly opened task-type writer. -/
def openTaskWriter : FakeStorageWriter :=
  ((FakeStorageWriter.init StorageType.task).Open).2

/-- Iterated `GetNextWrittenEventSource`: the writer state after `n`
successive next-cursor reads (results discarded). -/
def FakeStorageWriter.runNexts (w : FakeStorageWriter) : Nat → FakeStorageWriter
  | 0 => w
  | Nat.succ n => ((w.runNexts n).GetNextWrittenEventSource).2

/-- On an open writer, `n` next-cursor reads only advance
`written_event_source_index` by `n`; no other field changes. -/
theorem FakeStorageWriter.runNexts_open (w : FakeStorageWriter)
    (st : FakeStore) (h : w.store = some st) (n : Nat) :
    w.runNexts n =
      { w with written_event_source_index :=
                 w.written_event_source_index + n } := by
  rcases w with ⟨ty, store, fi, ni, sc, scfg, ss, tc, ts⟩
  simp only at h
  subst h
  induction n with
  | zero => rfl
  | succ n ih =>
      show (((FakeStorageWriter.mk ty (some st) fi ni sc scfg ss tc
        ts).runNexts n).GetNextWrittenEventSource).2 = _
      rw [ih]
      rfl

/-- C8: an `ExtractionWarning` has container type `extraction_warning` and
exactly the three attributes `message`, `parser_chain` and `path_spec`; the
constructor stores each (optional, `None`-defaulting) argument unchanged in
the attribute of the same name. -/
theorem C8_extraction_warning (m p : Option String) (ps : Option PathSpec) :
    ExtractionWarning.CONTAINER_TYPE = "extraction_warning" ∧
    (ExtractionWarning.init m p ps).message = m ∧
    (ExtractionWarning.init m p ps).parser_chain = p ∧
    (ExtractionWarning.init m p ps).path_spec = ps ∧
    ∀ w1 w2 : ExtractionWarning, w1.message = w2.message →
      w1.parser_chain = w2.parser_chain → w1.path_spec = w2.path_spec →
      w1 = w2 := by
  refine ⟨rfl, rfl, rfl, rfl, ?_⟩
  intro w1 w2 h1 h2 h3
  cases w1
  cases w2
  simp_all

/-- C8 witness: the theorem applied at concrete arguments, its inner
hypotheses discharged by evaluation. -/
theorem C8_extraction_warning_witness :
    ExtractionWarning.init (some "msg") none none =
      ExtractionWarning.init (some "msg") none none :=
  (C8_extraction_warning (some "msg") none none).2.2.2.2 _ _ rfl rfl rfl

/-- C4: for every open writer, `WriteSessionStart` fails with the
unsupported-for-storage-type error exactly when the storage type is not
`session`, `WriteTaskStart` exactly when it is not `task`; with the matching
storage type each call succeeds. -/
theorem C4_storage_type_gating (w : FakeStorageWriter) (st : FakeStore)
    (h : w.store = some st) (s : Session) (t : Task) :
    ((w.WriteSessionStart s).1 = .error .unsupportedForStorageType ↔
      w.storage_type ≠ StorageType.session) ∧
    ((w.WriteSessionStart s).1 = .ok () ↔
      w.storage_type = StorageType.session) ∧
    ((w.WriteTaskStart t).1 = .error .unsupportedForStorageType ↔
      w.storage_type ≠ StorageType.task) ∧
    ((w.WriteTaskStart t).1 = .ok () ↔
      w.storage_type = StorageType.task) := by
  rcases w with ⟨ty, store, fi, ni, sc, scfg, ss, tc, ts⟩
  simp only at h
  subst h
  cases ty <;>
    simp [FakeStorageWriter.WriteSessionStart, FakeStorageWriter.WriteTaskStart,
      FakeStorageWriter.RaiseIfNotWritable]

/-- C4 witness: the gating applied to a freshly opened session writer. -/
theorem C4_storage_type_gating_witness :
    (openSessionWriter.WriteSessionStart sampleSession).1 = .ok () ∧
    (openSessionWriter.WriteTaskStart sampleTask).1 =
      .error .unsupportedForStorageType := by
  have h := C4_storage_type_gating openSessionWriter FakeStore.empty rfl
    sampleSession sampleTask
  exact ⟨h.2.1.mpr rfl, h.2.2.1.mpr (by decide)⟩

/-- C5: for every open writer, both cursor reads return no container (`ok
none`, not an error) when the index read is beyond the store's event-source
count, whereas on a closed writer both raise the distinct hard `notOpen`
failure. -/
theorem C5_miss_is_none_closed_is_error (w : FakeStorageWriter)
    (st : FakeStore) (hopen : w.store = some st)
    (wc : FakeStorageWriter) (hc : wc.store = none) :
    (st.eventSources.length ≤ w.first_written_event_source_index →
      (w.GetFirstWrittenEventSource).1 = .ok none) ∧
    (st.eventSources.length ≤ w.written_event_source_index →
      (w.GetNextWrittenEventSource).1 = .ok none) ∧
    (wc.GetFirstWrittenEventSource).1 = .error .notOpen ∧
    (wc.GetNextWrittenEventSource).1 = .error .notOpen := by
  rcases w with ⟨ty, store, fi, ni, sc, scfg, ss, tc, ts⟩
  rcases wc with ⟨ty2, store2, fi2, ni2, sc2, scfg2, ss2, tc2, ts2⟩
  simp only at hopen hc
  subst hopen
  subst hc
  simp [FakeStorageWriter.GetFirstWrittenEventSource,
    FakeStorageWriter.GetNextWrittenEventSource,
    FakeStore.GetAttributeContainerByIndex, List.get?_eq_none]

/-- C5 witness: a fully consumed non-empty store (one source appended, one
next-read done) misses with `none` on the next poll; a freshly opened
writer over an empty store misses with `none` on the first-read; the
just-initialized (closed) writer raises `notOpen` on both. -/
theorem C5_miss_is_none_closed_is_error_witness :
    (((((openSessionWriter.AddEventSource
        ⟨7⟩).2.GetNextWrittenEventSource).2).GetNextWrittenEventSource).1) =
      .ok none ∧
    (openSessionWriter.GetFirstWrittenEventSource).1 = .ok none ∧
    ((FakeStorageWriter.init StorageType.task).GetFirstWrittenEventSource).1 =
      .error .notOpen ∧
    ((FakeStorageWriter.init StorageType.task).GetNextWrittenEventSource).1 =
      .error .notOpen := by
  have h1 := C5_miss_is_none_closed_is_error
    (((openSessionWriter.AddEventSource ⟨7⟩).2.GetNextWrittenEventSource).2)
    ⟨[⟨7⟩], [], [], [], [], []⟩ rfl
    (FakeStorageWriter.init StorageType.task) rfl
  have h2 := C5_miss_is_none_closed_is_error openSessionWriter
    FakeStore.empty rfl (FakeStorageWriter.init StorageType.task) rfl
  exact ⟨h1.2.1 (by decide), h2.1 (by decide), h2.2.2.1, h2.2.2.2⟩

/-- C6: `Open` on an already-open writer fails with `alreadyOpen` and leaves
the writer unchanged; `Open` on a closed writer succeeds, attaches a freshly
instantiated (opened) backing store, and resets both event-source cursor
counters to zero. -/
theorem C6_open_semantics (w : FakeStorageWriter) (st : FakeStore)
    (h : w.store = some st) (wc : FakeStorageWriter) (hc : wc.store = none) :
    w.Open = (.error .alreadyOpen, w) ∧
    wc.Open = (.ok (), { wc with
                         store := some FakeStore.empty
                         first_written_event_source_index := 0
                         written_event_source_index := 0 }) := by
  rcases w with ⟨ty, store, fi, ni, sc, scfg, ss, tc, ts⟩
  rcases wc with ⟨ty2, store2, fi2, ni2, sc2, scfg2, ss2, tc2, ts2⟩
  simp only at h hc
  subst h
  subst hc
  simp [FakeStorageWriter.Open]

/-- C6 witness: opening a just-initialized writer, then opening again. -/
theorem C6_open_semantics_witness :
    openSessionWriter.Open = (.error .alreadyOpen, openSessionWriter) ∧
    (FakeStorageWriter.init StorageType.session).Open =
      (.ok (), openSessionWriter) := by
  have h := C6_open_semantics openSessionWriter FakeStore.empty rfl
    (FakeStorageWriter.init StorageType.session) rfl
  refine ⟨h.1, h.2.trans ?_⟩
  rfl

/-- C1 counterexample: on a freshly opened session writer, a successful
`WriteSessionStart` caches the derived record but appends nothing to the
backing store — the store still holds no session-start container at all, so
the claimed append does not happen. -/
theorem C1_counterexample :
    (openSessionWriter.WriteSessionStart sampleSession).1 = .ok () ∧
    (openSessionWriter.WriteSessionStart sampleSession).2.session_start =
      some sampleSession.CreateSessionStart ∧
    Option.map FakeStore.sessionStarts
      (openSessionWriter.WriteSessionStart sampleSession).2.store = some [] ∧
    ¬ Option.map FakeStore.sessionStarts
        (openSessionWriter.WriteSessionStart sampleSession).2.store =
      some [sampleSession.CreateSessionStart] := by
  refine ⟨rfl, rfl, rfl, ?_⟩
  intro hx
  exact absurd (Option.some.inj hx) (by decide)

/-- C1 (amended): on every open session-type writer, each of
`WriteSessionStart`, `WriteSessionCompletion` and `WriteSessionConfiguration`
succeeds, derives the corresponding record via the session's
`CreateSessionStart`/`CreateSessionCompletion`/`CreateSessionConfiguration`
derivation and caches it on the writer — but does not append it to the
backing store, which is left unchanged. -/
theorem C1_session_writes_cache_only (w : FakeStorageWriter) (st : FakeStore)
    (h : w.store = some st) (hT : w.storage_type = StorageType.session)
    (s : Session) :
    w.WriteSessionStart s =
      (.ok (), { w with session_start := some s.CreateSessionStart }) ∧
    w.WriteSessionCompletion s =
      (.ok (), { w with session_completion := some s.CreateSessionCompletion }) ∧
    w.WriteSessionConfiguration s =
      (.ok (), { w with
                 session_configuration := some s.CreateSessionConfiguration }) ∧
    (w.WriteSessionStart s).2.store = w.store ∧
    (w.WriteSessionCompletion s).2.store = w.store ∧
    (w.WriteSessionConfiguration s).2.store = w.store := by
  rcases w with ⟨ty, store, fi, ni, sc, scfg, ss, tc, ts⟩
  simp only at h hT
  subst h
  subst hT
  simp [FakeStorageWriter.WriteSessionStart,
    FakeStorageWriter.WriteSessionCompletion,
    FakeStorageWriter.WriteSessionConfiguration,
    FakeStorageWriter.RaiseIfNotWritable]

/-- C1 witness: the amended theorem applied to a freshly opened session
writer and a sample session. -/
theorem C1_session_writes_cache_only_witness :
    openSessionWriter.WriteSessionStart sampleSession =
      (.ok (), { openSessionWriter with
                 session_start := some sampleSession.CreateSessionStart }) ∧
    (openSessionWriter.WriteSessionStart sampleSession).2.store =
      openSessionWriter.store := by
  have h := C1_session_writes_cache_only openSessionWriter FakeStore.empty rfl
    rfl sampleSession
  exact ⟨h.1, h.2.2.2.1⟩

/-- C2: opening a writer on a store holding N event sources (the fake
writer's `Open` always attaches a fresh empty store, so N = 0), then
appending three sources: `GetFirstWrittenEventSource` returns the source at
index N, the next two `GetNextWrittenEventSource` calls return the sources
at indices N+1 and N+2, and one further call returns no container. -/
theorem C2_cursor_correctness (t : StorageType) (s1 s2 s3 : EventSource) :
    let w1 := ((FakeStorageWriter.init t).Open).2
    let N := (match w1.store with
              | some st => st.eventSources.length
              | none => 0)
    let w4 := (((w1.AddEventSource s1).2.AddEventSource s2).2.AddEventSource s3).2
    let r1 := w4.GetFirstWrittenEventSource
    let r2 := r1.2.GetNextWrittenEventSource
    let r3 := r2.2.GetNextWrittenEventSource
    let r4 := r3.2.GetNextWrittenEventSource
    N = 0 ∧
    (match w4.store with
     | some st => st.eventSources
     | none => []) = [s1, s2, s3] ∧
    r1.1 = .ok (some s1) ∧
    r2.1 = .ok (some s2) ∧
    r3.1 = .ok (some s3) ∧
    r4.1 = .ok none := by
  exact ⟨rfl, rfl, rfl, rfl, rfl, rfl⟩

/-- C3: the code at the failing input. On a freshly opened writer over an
empty store, `GetNextWrittenEventSource` returns no container yet still
advances `written_event_source_index` to 1 (the claim says it stays 0); after
one event source is appended at index 0, the next call reads index 1 and
again returns no container, permanently skipping the newly appended source
(the claim — and the method's own docstring promise that newly added event
sources can be retrieved in order of addition — says it returns that
source). -/
theorem C3_cursor_advances_on_miss :
    (openSessionWriter.GetNextWrittenEventSource).1 = .ok none ∧
    ((openSessionWriter.GetNextWrittenEventSource).2).written_event_source_index
      = 1 ∧
    ((((openSessionWriter.GetNextWrittenEventSource).2.AddEventSource
        ⟨7⟩).2.GetNextWrittenEventSource).1) = .ok none ∧
    (Option.map FakeStore.eventSources
      (((openSessionWriter.GetNextWrittenEventSource).2.AddEventSource
        ⟨7⟩).2.store)) = some [⟨7⟩] := by
  exact ⟨rfl, rfl, rfl, rfl⟩

/-- C7: every typed write checks writability (`notOpen`) before the storage
type, so a closed task-type writer fails `WriteSessionStart` with `notOpen`
rather than `unsupportedForStorageType`; and every write or read operation
on any writer after `Close` fails with `notOpen`. -/
theorem C7_not_writable_checked_first (w : FakeStorageWriter)
    (hT : w.storage_type = StorageType.task) (hc : w.store = none)
    (s : Session) (t : Task) (w2 : FakeStorageWriter) :
    (w.WriteSessionStart s).1 = .error .notOpen ∧
    ((w2.Close).WriteSessionStart s).1 = .error .notOpen ∧
    ((w2.Close).WriteSessionCompletion s).1 = .error .notOpen ∧
    ((w2.Close).WriteSessionConfiguration s).1 = .error .notOpen ∧
    ((w2.Close).WriteTaskStart t).1 = .error .notOpen ∧
    ((w2.Close).WriteTaskCompletion t).1 = .error .notOpen ∧
    ((w2.Close).GetFirstWrittenEventSource).1 = .error .notOpen ∧
    ((w2.Close).GetNextWrittenEventSource).1 = .error .notOpen := by
  rcases w with ⟨ty, store, fi, ni, sc, scfg, ss, tc, ts⟩
  simp only at hT hc
  subst hT
  subst hc
  exact ⟨rfl, rfl, rfl, rfl, rfl, rfl, rfl, rfl⟩

/-- C7 witness: a just-initialized (closed) task writer and a closed session
writer. -/
theorem C7_not_writable_checked_first_witness :
    ((FakeStorageWriter.init StorageType.task).WriteSessionStart
      sampleSession).1 = .error .notOpen ∧
    ((openSessionWriter.Close).GetFirstWrittenEventSource).1 =
      .error .notOpen := by
  have h := C7_not_writable_checked_first
    (FakeStorageWriter.init StorageType.task) rfl rfl sampleSession sampleTask
    openSessionWriter
  exact ⟨h.1, h.2.2.2.2.2.2.1⟩

/-- C9: on every open writer, `GetFirstWrittenEventSource` reads at the
fixed `first_written_event_source_index` and sets the next-written index to
one past it; it is insensitive to prior cursor reads — repeating it returns
the same result and state, and running any number of
`GetNextWrittenEventSource` calls first does not change what it returns
(it rewinds the cursor to the beginning of the newly-written range). -/
theorem C9_get_first_rewinds (w : FakeStorageWriter) (st : FakeStore)
    (h : w.store = some st) (n : Nat) :
    (w.GetFirstWrittenEventSource).1 =
      .ok (st.eventSources.get? w.first_written_event_source_index) ∧
    (w.GetFirstWrittenEventSource).2 =
      { w with written_event_source_index :=
                 w.first_written_event_source_index + 1 } ∧
    ((w.GetFirstWrittenEventSource).2).GetFirstWrittenEventSource =
      w.GetFirstWrittenEventSource ∧
    (w.runNexts n).GetFirstWrittenEventSource =
      w.GetFirstWrittenEventSource := by
  rcases w with ⟨ty, store, fi, ni, sc, scfg, ss, tc, ts⟩
  simp only at h
  subst h
  have hrun := FakeStorageWriter.runNexts_open
    ⟨ty, some st, fi, ni, sc, scfg, ss, tc, ts⟩ st rfl n
  refine ⟨rfl, rfl, rfl, ?_⟩
  rw [hrun]
  exact rfl

/-- C9 witness: two next-reads then a first-read on a freshly opened
writer. -/
theorem C9_get_first_rewinds_witness :
    (openSessionWriter.runNexts 2).GetFirstWrittenEventSource =
      openSessionWriter.GetFirstWrittenEventSource :=
  (C9_get_first_rewinds openSessionWriter FakeStore.empty rfl 2).2.2.2

/-- C10: every failing typed write — whether it fails with `notOpen` or with
`unsupportedForStorageType` — leaves all five cached records
(`session_start`, `session_completion`, `session_configuration`,
`task_start`, `task_completion`) unchanged: the checks precede any
mutation. -/
theorem C10_failed_writes_preserve_caches (w : FakeStorageWriter)
    (s : Session) (t : Task) (e : StorageError) :
    ((w.WriteSessionStart s).1 = .error e →
      (w.WriteSessionStart s).2.cachedRecords = w.cachedRecords) ∧
    ((w.WriteSessionCompletion s).1 = .error e →
      (w.WriteSessionCompletion s).2.cachedRecords = w.cachedRecords) ∧
    ((w.WriteSessionConfiguration s).1 = .error e →
      (w.WriteSessionConfiguration s).2.cachedRecords = w.cachedRecords) ∧
    ((w.WriteTaskStart t).1 = .error e →
      (w.WriteTaskStart t).2.cachedRecords = w.cachedRecords) ∧
    ((w.WriteTaskCompletion t).1 = .error e →
      (w.WriteTaskCompletion t).2.cachedRecords = w.cachedRecords) := by
  rcases w with ⟨ty, store, fi, ni, sc, scfg, ss, tc, ts⟩
  cases store <;> cases ty <;>
    simp [FakeStorageWriter.WriteSessionStart,
      FakeStorageWriter.WriteSessionCompletion,
      FakeStorageWriter.WriteSessionConfiguration,
      FakeStorageWriter.WriteTaskStart, FakeStorageWriter.WriteTaskCompletion,
      FakeStorageWriter.RaiseIfNotWritable, FakeStorageWriter.cachedRecords]

/-- C10 witness: a failing write (closed writer, `notOpen`) preserves the
cached records. -/
theorem C10_failed_writes_preserve_caches_witness :
    ((FakeStorageWriter.init StorageType.session).WriteSessionStart
      sampleSession).2.cachedRecords =
      (FakeStorageWriter.init StorageType.session).cachedRecords :=
  (C10_failed_writes_preserve_caches
    (FakeStorageWriter.init StorageType.session) sampleSession sampleTask
    .notOpen).1 rfl

end Plaso
